import Mathlib

/-!
Verification development for the LoRA training service
(`services/lora-training`).  The Python sources are shallowly embedded:
pure computations become Lean functions, stateful code becomes explicit
state passing over an oracle environment, fallible calls become
`Except String`, machine paths become the numeric index embedded in the
file name (`frame_0001.jpg` is modelled as `1`), and timestamps become
rationals.
-/

/-! ## core/video_processor.py -/

/-- Metadata of one extracted frame (`@dataclass Frame`).  The
`file_path` field holds the numeric suffix of the frame file name
`frame_{i:04d}.jpg` produced by `extract_frames`, which is all the later
stages inspect. -/
structure Frame where
  scene_number : Nat
  file_path : Nat
  timestamp_start : ℚ
  timestamp_end : ℚ
  duration : ℚ
  midpoint : ℚ
  width : Nat
  height : Nat
deriving DecidableEq

/-- Scene list built by `VideoProcessor.detect_scenes` from the parsed
`pts_time` values: a running loop `scenes.append((start, t)); start = t`
followed by the closing `scenes.append((start, duration))`. -/
def scenesFromTimes (start : ℚ) (times : List ℚ) (duration : ℚ) :
    List (ℚ × ℚ) :=
  match times with
  | [] => [(start, duration)]
  | t :: ts => (start, t) :: scenesFromTimes t ts duration

/-- `VideoProcessor.detect_scenes`, given the already-parsed scene cut
timestamps and the probed duration: zero cut points yield the whole
video as a single scene, otherwise the chained segment list. -/
def detect_scenes (scene_times : List ℚ) (duration : ℚ) : List (ℚ × ℚ) :=
  if scene_times = [] then
    [(0, duration)]
  else
    scenesFromTimes 0 scene_times duration

/-- Recursive worker for `extract_frames`: `i` is the 1-based scene
counter of the Python `enumerate(scenes, 1)`.  `extractOk` abstracts
`_extract_single_frame` (ffmpeg succeeded and the file exists) and
`dims` abstracts `_get_frame_dimensions`.  The second component records
the timestamp of every single-frame extraction attempt, one per
scene. -/
def extract_frames_loop (extractOk : ℚ → Bool) (dims : ℚ → Nat × Nat) :
    Nat → List (ℚ × ℚ) → List Frame × List ℚ
  | _, [] => ([], [])
  | i, (s, e) :: rest =>
    let midpoint := (s + e) / 2
    let (fs, ts) := extract_frames_loop extractOk dims (i + 1) rest
    if extractOk midpoint then
      let (w, h) := dims midpoint
      ({ scene_number := i, file_path := i, timestamp_start := s,
         timestamp_end := e, duration := e - s, midpoint := midpoint,
         width := w, height := h } :: fs, midpoint :: ts)
    else
      (fs, midpoint :: ts)

/-- `VideoProcessor.extract_frames`: one extraction attempt per scene,
at the scene midpoint; a failed attempt only logs a warning and skips
the frame. -/
def extract_frames (extractOk : ℚ → Bool) (dims : ℚ → Nat × Nat)
    (scenes : List (ℚ × ℚ)) : List Frame × List ℚ :=
  extract_frames_loop extractOk dims 1 scenes

/-- Oracles for one `process_video` run: outcome of `download_video`
(raising `VideoProcessingError` on failure), outcome of the ffmpeg
scene-detection call (the parsed cut timestamps, or the
`VideoProcessingError` message), the probed duration, and the per-frame
extraction oracles. -/
structure VideoEnv where
  download : Except String Unit
  detect : Except String (List ℚ)
  duration : ℚ
  extractOk : ℚ → Bool
  dims : ℚ → Nat × Nat

/-- Result dictionary returned by `VideoProcessor.process_video`. -/
structure VideoResult where
  success : Bool
  scenes_detected : Nat
  frames_extracted : Nat
  frames : List Frame
  error : Option String
deriving DecidableEq

/-- Body of the `try` block of `process_video` (scene mode, the mode
the training pipeline configures): download, detect scenes, extract
frames; any `VideoProcessingError` raised inside propagates. -/
def processVideoBody (env : VideoEnv) : Except String VideoResult :=
  match env.download with
  | .error e => .error e
  | .ok _ =>
    match env.detect with
    | .error e => .error e
    | .ok times =>
      let scenes := detect_scenes times env.duration
      let frames := (extract_frames env.extractOk env.dims scenes).1
      .ok { success := true, scenes_detected := scenes.length,
            frames_extracted := frames.length, frames := frames,
            error := none }

/-- `VideoProcessor.process_video`: the `except VideoProcessingError`
handler converts the raised error into a returned failure record with
an empty frame list; the function itself never propagates the
exception. -/
def process_video (env : VideoEnv) : VideoResult :=
  match processVideoBody env with
  | .ok r => r
  | .error e =>
    { success := false, scenes_detected := 0, frames_extracted := 0,
      frames := [], error := some e }

/-! ## utils/face_detection.py -/

/-- Quality assessment record (`@dataclass ImageQuality`). -/
structure ImageQuality where
  has_face : Bool
  face_count : Nat
  face_confidence : ℚ
  blur_score : ℚ
  is_acceptable : Bool
  width : Nat
  height : Nat
deriving DecidableEq

/-- The default face-confidence threshold 0.8, written as the reduced
fraction 4/5. -/
def ratZeroPointEight : ℚ := ⟨4, 5, by norm_num, by norm_num⟩

/-- Thresholds held by `FaceDetector` (constructor defaults 0.8 / 100.0). -/
structure QualityConfig where
  min_face_confidence : ℚ := ratZeroPointEight
  blur_threshold : ℚ := 100

/-- Raw measurements of a successfully decoded image: what
`cv2.imread`, `detect_faces` and `detect_blur` deliver before
`assess_quality` combines them. -/
structure RawImage where
  face_count : Nat
  face_confidence : ℚ
  blur_score : ℚ
  width : Nat
  height : Nat

/-- `FaceDetector.assess_quality`: `none` when the image cannot be
read, otherwise the combined verdict.  Acceptance requires a face, face
confidence at or above the configured minimum and a blur score at or
above the threshold. -/
def assess_quality (cfg : QualityConfig) (read : Nat → Option RawImage)
    (image_path : Nat) : Option ImageQuality :=
  match read image_path with
  | none => none
  | some img =>
    let has_face := decide (0 < img.face_count)
    some { has_face := has_face, face_count := img.face_count,
           face_confidence := img.face_confidence,
           blur_score := img.blur_score,
           is_acceptable := has_face
             && decide (cfg.min_face_confidence ≤ img.face_confidence)
             && decide (cfg.blur_threshold ≤ img.blur_score),
           width := img.width, height := img.height }

/-- `FaceDetector.filter_quality_frames`: walks the input paths in
order; a path whose assessment is `none` (unreadable image) is skipped
with `continue`, a readable path contributes its assessment, and an
acceptable one is also appended to the accepted list. -/
def filter_quality_frames (assess : Nat → Option ImageQuality) :
    List Nat → List Nat × List ImageQuality
  | [] => ([], [])
  | p :: ps =>
    let (acc, qs) := filter_quality_frames assess ps
    match assess p with
    | none => (acc, qs)
    | some q =>
      if q.is_acceptable then (p :: acc, q :: qs) else (acc, q :: qs)

/-! ## utils/captioning.py -/

/-- Default caption variation templates of `CaptionGenerator`. -/
def variation_templates : List String :=
  ["a portrait of \x7btrigger\x7d",
   "a photo of \x7btrigger\x7d",
   "\x7btrigger\x7d looking at camera",
   "a professional photo of \x7btrigger\x7d",
   "a headshot of \x7btrigger\x7d"]

/-- Default single template of `CaptionGenerator`. -/
def default_template : String := "a portrait of \x7btrigger\x7d"

/-- Character-level worker for the template interpolation: replaces
every occurrence of the placeholder `\x7btrigger\x7d` by the trigger
phrase. -/
def substPlaceholder (trig : List Char) : List Char → List Char
  | '\x7b' :: 't' :: 'r' :: 'i' :: 'g' :: 'g' :: 'e' :: 'r' :: '\x7d' :: rest =>
    trig ++ substPlaceholder trig rest
  | c :: rest => c :: substPlaceholder trig rest
  | [] => []

/-- Python `template.format(trigger=...)` for the templates above:
every occurrence of the placeholder is replaced by the trigger
phrase. -/
def interpolate (template trigger : String) : String :=
  String.mk (substPlaceholder trigger.toList template.toList)

/-- `CaptionGenerator.generate_caption`: with variations enabled the
template is chosen by the numeric suffix of the image file name modulo
the template count (`int(image_path.stem.split("_")[-1])`, modelled as
the frame's `file_path` index, `none` when the stem does not parse);
otherwise, and on a parse failure, the default template is used. -/
def generate_caption (trigger : String) (use_variations : Bool)
    (file_idx : Option Nat) : String :=
  let template :=
    if use_variations then
      match file_idx with
      | some idx => variation_templates.getD (idx % variation_templates.length) default_template
      | none => default_template
    else default_template
  interpolate template trigger

/-! ## core/dataset_builder.py -/

/-- Prepared dataset (`@dataclass TrainingDataset`), reduced to the
observations the claims are about: the image count, the trigger phrase,
the retained frames (the `frames` metadata list) and the caption file
contents in order.  The dataclass defines `image_count` and no
`frame_count` field; `training_pipeline.py` nevertheless reads
`dataset.frame_count`, an attribute access that raises
`AttributeError` — see `process_training_job`. -/
structure TrainingDataset where
  image_count : Nat
  trigger_phrase : String
  kept : List Frame
  captions : List String
deriving DecidableEq

/-- `DatasetBuilder` frame-count bounds (constructor defaults, the ones
the training pipeline instantiates). -/
def BUILDER_MIN_FRAMES : Nat := 15

/-- Upper frame-count bound of `DatasetBuilder` (constructor default). -/
def BUILDER_MAX_FRAMES : Nat := 50

/-- `DatasetBuilder.filter_frames`: runs `filter_quality_frames` over
the frame paths and maps the accepted paths back to `Frame` objects by
membership. -/
def filter_frames (assess : Nat → Option ImageQuality)
    (frames : List Frame) : List Frame × List ImageQuality :=
  let frame_paths := frames.map (·.file_path)
  let resFilter := filter_quality_frames assess frame_paths
  (frames.filter (fun f => f.file_path ∈ resFilter.1), resFilter.2)

/-- `DatasetBuilder.build_dataset`: optional quality filtering, the
minimum-count check raising `DatasetBuildError` (whose message the
catch-all handler wraps as `Dataset build failed: ...`), front
truncation to `max_frames`, then captions generated per retained frame
from its original extracted file name. -/
def build_dataset (assess : Nat → Option ImageQuality)
    (min_frames max_frames : Nat) (frames : List Frame)
    (trigger_phrase : String)
    (use_caption_variations filter_quality : Bool) :
    Except String TrainingDataset :=
  let frames1 :=
    if filter_quality then (filter_frames assess frames).1 else frames
  if frames1.length < min_frames then
    .error ("Dataset build failed: Insufficient frames: "
      ++ toString frames1.length ++ " < " ++ toString min_frames
      ++ " required")
  else
    let frames2 :=
      if max_frames < frames1.length then frames1.take max_frames
      else frames1
    .ok { image_count := frames2.length, trigger_phrase := trigger_phrase,
          kept := frames2,
          captions := frames2.map (fun f =>
            generate_caption trigger_phrase use_caption_variations
              (some f.file_path)) }

/-- Caption list that the spec sentence describes, stated in the
spec's own words for comparison with the source behaviour: the template
of the k-th retained frame is chosen by that frame's (1-based) position
in the retained sequence modulo the template-set size. -/
def captionsByPosition (trigger : String) (kept : List Frame) :
    List String :=
  (List.range kept.length).map (fun k =>
    interpolate
      (variation_templates.getD ((k + 1) % variation_templates.length)
        default_template) trigger)

/-! ## webhook_notifier.py -/

/-- Module constant `MAX_ATTEMPTS`. -/
def MAX_ATTEMPTS : Nat := 3

/-- Module constant `TIMEOUT_SECONDS`. -/
def TIMEOUT_SECONDS : Nat := 10

/-- Observable outcome of one HTTP attempt of `send_webhook`: a
response with a status code, the 10-second client timeout, or any other
raised client error. -/
inductive AttemptOutcome where
  | response (status : Nat)
  | timeout
  | connError (msg : String)

/-- Result dictionary of `send_webhook`.  Every field that a given
return path omits from the Python dict is `none` here; in particular
`attempts` is absent only on the missing-URL path. -/
structure WebhookResult where
  success : Bool
  status_code : Option Nat
  error : Option String
  attempts : Option Nat
deriving DecidableEq

/-- One attempt of the `try` block: a 2xx response returns the status,
a non-2xx response raises `Webhook returned {status}`, a timeout raises
the timeout message, and any other error raises its own message; the
two `except` arms treat every raised message identically. -/
def attemptOnce (outcome : Nat → AttemptOutcome) (attempt : Nat) :
    Except String Nat :=
  match outcome attempt with
  | .response status =>
    if 200 ≤ status ∧ status < 300 then .ok status
    else .error ("Webhook returned " ++ toString status)
  | .timeout =>
    .error ("Webhook timeout after " ++ toString TIMEOUT_SECONDS ++ "s")
  | .connError msg => .error msg

/-- Trace of one `send_webhook` call: the returned dictionary, the
`asyncio.sleep` delays performed between attempts (in seconds, in
order), and the number of HTTP attempts made. -/
structure WebhookTrace where
  result : WebhookResult
  delays : List Nat
  httpAttempts : Nat
deriving DecidableEq

/-- Recursive retry structure of `send_webhook`: `attempt` is the
1-based attempt number and `fuel` is `MAX_ATTEMPTS - attempt`, so the
`attempt < MAX_ATTEMPTS` retry guard of the source is the `fuel`
successor case.  On failure with retries left it sleeps
`2 ^ (attempt - 1)` seconds and re-invokes itself with `attempt + 1`. -/
def send_webhook_loop (outcome : Nat → AttemptOutcome) :
    Nat → Nat → WebhookTrace
  | attempt, fuel =>
    match attemptOnce outcome attempt with
    | .ok status =>
      { result := { success := true, status_code := some status,
                    error := none, attempts := some attempt },
        delays := [], httpAttempts := 1 }
    | .error msg =>
      match fuel with
      | 0 =>
        { result := { success := false, status_code := none,
                      error := some msg, attempts := some attempt },
          delays := [], httpAttempts := 1 }
      | f + 1 =>
        let rest := send_webhook_loop outcome (attempt + 1) f
        { result := rest.result,
          delays := 2 ^ (attempt - 1) :: rest.delays,
          httpAttempts := rest.httpAttempts + 1 }

/-- `send_webhook`: an empty (falsy) webhook URL returns
`{success: False, error: "No webhook URL"}` immediately — no HTTP
attempt, no sleep, and no `attempts` key — otherwise the retry loop
starts at attempt 1. -/
def send_webhook (outcome : Nat → AttemptOutcome) (webhook_url : String) :
    WebhookTrace :=
  if webhook_url = "" then
    { result := { success := false, status_code := none,
                  error := some "No webhook URL", attempts := none },
      delays := [], httpAttempts := 0 }
  else
    send_webhook_loop outcome 1 (MAX_ATTEMPTS - 1)

/-! ## db.py and providers/base.py -/

/-- One stored version record (`version_data`), reduced to the fields
the claims inspect. -/
structure Version where
  version : Nat
  sizeBytes : Nat
deriving DecidableEq

/-- The mutable Job document in the job store. -/
structure Job where
  status : String
  progress : Nat
  error : Option String
  versions : List Version
  storageBytes : Nat
deriving DecidableEq

/-- `JobDatabase.update_job_status`: sets the status, sets progress
only when one is passed, forces progress to 100 on `completed`, and
records an error message when one is passed. -/
def update_job_status (job : Job) (status : String)
    (progress : Option Nat) (error : Option String) : Job :=
  let j1 := { job with status := status }
  let j2 := match progress with
    | some p => { j1 with progress := p }
    | none => j1
  let j3 := if status = "completed" then { j2 with progress := 100 } else j2
  match error with
  | some e => { j3 with error := some e }
  | none => j3

/-- `JobDatabase.add_version`: pushes the version record and bumps the
cumulative storage-byte counter. -/
def add_version (job : Job) (v : Version) : Job :=
  { job with versions := job.versions ++ [v],
             storageBytes := job.storageBytes + v.sizeBytes }

/-- `TrainingResult` of `providers/base.py`, reduced to the fields the
orchestrator touches.  `FalAIProvider.train` catches every exception
and returns `success=False` with `lora_url=None` and the error message
instead of raising. -/
structure TrainingResult where
  success : Bool
  lora_url : Option String
  error : Option String
deriving DecidableEq

/-! ## training_pipeline.py -/

/-- `Config.from_env().min_frames` (config.py default 10), the second
frame-count check of the pipeline. -/
def CONFIG_MIN_FRAMES : Nat := 10

/-- Job-store operations issued by `process_training_job`, in order. -/
inductive DbOp where
  | updateStatus (status : String) (progress : Option Nat)
      (error : Option String)
  | addVersion (v : Version)
deriving DecidableEq

/-- Pipeline stages of the source's step list, recorded when the
orchestrator enters the corresponding step.  The stages after
`dataset` appear in the source's text but are unreachable: the
`dataset.frame_count` read raises first (see
`process_training_job`). -/
inductive Stage where
  | download
  | extract
  | dataset
  | uploadDataset
  | train
  | downloadArtifact
  | uploadArtifact
  | persistVersion
  | complete
deriving DecidableEq

/-- Effect of one job-store operation on the Job document. -/
def applyOp (job : Job) : DbOp → Job
  | .updateStatus status progress error =>
    update_job_status job status progress error
  | .addVersion v => add_version job v

/-- Replay of a job-store operation list over a Job document. -/
def applyOps (job : Job) (ops : List DbOp) : Job :=
  ops.foldl applyOp job

/-- Oracles for one `process_training_job` run: outcomes of every
external call named in the source's text, the provider's training
result, and the Job document the store holds when the run starts
(single writer: nothing else mutates it).  `read` feeds the quality
assessor; `trigger` is the request's trigger phrase.  The collaborators
from `uploadDataset` on are never consulted, because every run raises
at the `dataset.frame_count` read before step 4. -/
structure PipelineEnv where
  job0 : Job
  downloadVideo : Except String Unit
  video : VideoEnv
  read : Nat → Option RawImage
  trigger : String
  uploadDataset : Except String Unit
  train : TrainingResult
  downloadLora : Except String Unit
  uploadLora : Except String Unit
  uploadConfigFile : Except String Unit
  loraSize : Nat

/-- Decidable equality for fallible results, used to evaluate run
outcomes on concrete inputs. -/
instance {ε α : Type} [DecidableEq ε] [DecidableEq α] :
    DecidableEq (Except ε α) := fun x y =>
  match x, y with
  | .ok a, .ok b =>
    if h : a = b then .isTrue (by rw [h]) else .isFalse (by simp [h])
  | .error a, .error b =>
    if h : a = b then .isTrue (by rw [h]) else .isFalse (by simp [h])
  | .ok _, .error _ => .isFalse (by simp)
  | .error _, .ok _ => .isFalse (by simp)

/-- Observable trace of one `process_training_job` run: the job-store
operations issued in order, the stages entered, and the outcome — the
`ok` case would carry the allocated version number of the source's
final `return`, but no run reaches it; every run ends in the exception
message caught by the orchestrator's handler. -/
structure RunResult where
  ops : List DbOp
  stages : List Stage
  outcome : Except String Nat
deriving DecidableEq

/-- The `except Exception` arm of `process_training_job`: the job is
set to `failed` with the captured message and no progress value, and
the exception is re-raised. -/
def failRun (ops : List DbOp) (stages : List Stage) (e : String) :
    RunResult :=
  { ops := ops ++ [.updateStatus "failed" none (some e)],
    stages := stages, outcome := .error e }

/-- One `processing` progress checkpoint update. -/
def processingUpd (p : Nat) : DbOp :=
  .updateStatus "processing" (some p) none

/-- `TrainingPipeline.process_training_job`, step by step.  After a
successful `build_dataset`, line 82 of the source evaluates
`dataset.frame_count` — but `TrainingDataset` defines no such
attribute (its field is `image_count`, and only the test mocks carry a
`frame_count`), so the attribute access raises `AttributeError`
before the comparison with `config.min_frames` runs.  The
orchestrator's `except Exception` arm catches it and marks the job
failed.  Steps 4-9 of the source (dataset upload, provider training,
artifact download, version allocation, completion) are therefore dead
code: no run reaches them, the provider is never called, and no
version is ever appended. -/
def process_training_job (env : PipelineEnv) : RunResult :=
  let ops := [processingUpd 0]
  let stages := [Stage.download]
  let ops := ops ++ [processingUpd 10]
  match env.downloadVideo with
  | .error e => failRun ops stages e
  | .ok _ =>
  let stages := stages ++ [Stage.extract]
  let ops := ops ++ [processingUpd 20]
  let video_result := process_video env.video
  let stages := stages ++ [Stage.dataset]
  let ops := ops ++ [processingUpd 35]
  match build_dataset (assess_quality {} env.read) BUILDER_MIN_FRAMES
      BUILDER_MAX_FRAMES video_result.frames env.trigger true true with
  | .error e => failRun ops stages e
  | .ok _ =>
    failRun ops stages
      "AttributeError: TrainingDataset object has no attribute frame_count"

/-- The `processing` checkpoints a run can persist.  The source's text
also contains updates at 50, 60, 85, 95 and the final `completed`
update at 100, but they sit past the `dataset.frame_count` read and
are never executed. -/
def CHECKPOINTS : List Nat := [0, 10, 20, 35]

/-- Operation list of a run that fails after the first `k` checkpoint
updates. -/
def failTrace (k : Nat) (e : String) : List DbOp :=
  (CHECKPOINTS.take k).map processingUpd
    ++ [.updateStatus "failed" none (some e)]

/-- Progress value carried by one job-store operation, if any. -/
def opProgress : DbOp → Option Nat
  | .updateStatus _ p _ => p
  | .addVersion _ => none

/-- The progress values a run persists, in order. -/
def progressValues (ops : List DbOp) : List Nat :=
  ops.filterMap opProgress

/-- The frame list `build_dataset` works with after the optional
quality-filtering step. -/
def post_filter (assess : Nat → Option ImageQuality)
    (filter_quality : Bool) (frames : List Frame) : List Frame :=
  if filter_quality then (filter_frames assess frames).1 else frames

/-! ## Concrete oracles used to evaluate the model on specific inputs -/

/-- A decoded image that passes every quality criterion. -/
def goodImage : RawImage :=
  { face_count := 1, face_confidence := 1, blur_score := 200,
    width := 640, height := 480 }

/-- A decoded image with no face, which every threshold rejects. -/
def facelessImage : RawImage :=
  { face_count := 0, face_confidence := 0, blur_score := 200,
    width := 640, height := 480 }

/-- Reader for which every image decodes and passes. -/
def readAllGood : Nat → Option RawImage := fun _ => some goodImage

/-- Reader for which no image decodes (every `cv2.imread` fails). -/
def readAllBroken : Nat → Option RawImage := fun _ => none

/-- Reader for which frame 2 has no face and every other frame
passes. -/
def readDropSecond : Nat → Option RawImage := fun p =>
  if p = 2 then some facelessImage else some goodImage

/-- A frame record carrying only its extracted-file index, as the
captioning path sees it. -/
def plainFrame (i : Nat) : Frame :=
  { scene_number := i, file_path := i, timestamp_start := 0,
    timestamp_end := 0, duration := 0, midpoint := 0, width := 0,
    height := 0 }

/-- Video oracles for a 30-second video with 14 scene cuts (hence 15
scenes) on which every per-frame extraction succeeds. -/
def venvOK : VideoEnv :=
  { download := .ok (), detect := .ok [2, 4, 6, 8, 10, 12, 14, 16, 18,
      20, 22, 24, 26, 28], duration := 30,
    extractOk := fun _ => true, dims := fun _ => (640, 480) }

/-- Video oracles for a source whose download fails. -/
def venvBadDownload : VideoEnv :=
  { download := .error "Failed to download video: connection refused",
    detect := .ok [], duration := 30, extractOk := fun _ => true,
    dims := fun _ => (640, 480) }

/-- A fresh Job document with no versions. -/
def freshJob : Job :=
  { status := "queued", progress := 0, error := none, versions := [],
    storageBytes := 0 }

/-- Pipeline oracles on which every external call succeeds. -/
def envOK : PipelineEnv :=
  { job0 := freshJob, downloadVideo := .ok (), video := venvOK,
    read := readAllGood, trigger := "person",
    uploadDataset := .ok (),
    train := { success := true,
               lora_url := some "https://cdn.example.com/lora.safetensors",
               error := none },
    downloadLora := .ok (), uploadLora := .ok (),
    uploadConfigFile := .ok (), loraSize := 125000000 }

/-- Pipeline oracles on which the provider would report a failed
remote training — `FalAIProvider.train` returns
`TrainingResult(success=False, lora_url=None, error=...)` instead of
raising — were the provider ever called. -/
def envTrainFail : PipelineEnv :=
  { envOK with
    train := { success := false, lora_url := none,
               error := some "Training failed: GPU quota exceeded" } }

/-- Pipeline oracles on which the source video cannot be downloaded by
the frame-extraction stage. -/
def envVideoFail : PipelineEnv :=
  { envOK with video := venvBadDownload }

/-- Pipeline oracles on which only 5 frames survive quality filtering:
a 30-second video with 4 cuts and an always-accepting reader. -/
def envFewFrames : PipelineEnv :=
  { envOK with
    video := { venvOK with detect := .ok [6, 12, 18, 24] } }

/-- Dataset built from frames 1-3 when frame 2 is rejected by quality
filtering: retained frames keep their original extracted indices 1 and
3, and the captions follow those indices. -/
def twoFrameDataset : TrainingDataset :=
  { image_count := 2, trigger_phrase := "person",
    kept := [plainFrame 1, plainFrame 3],
    captions := ["a photo of person", "a professional photo of person"] }

/-- Dataset built from frames 1-3 when every frame passes quality
filtering: indices and positions coincide, so captions cycle through
the template set by position. -/
def threeFrameDataset : TrainingDataset :=
  { image_count := 3, trigger_phrase := "person",
    kept := [plainFrame 1, plainFrame 2, plainFrame 3],
    captions := ["a photo of person", "person looking at camera",
                 "a professional photo of person"] }

/-- Webhook attempt oracle: times out on attempts 1 and 2 and returns
HTTP 200 on attempt 3 (end-to-end scenario of the retry contract). -/
def twoTimeoutsThen200 : Nat → AttemptOutcome := fun attempt =>
  if attempt ≤ 2 then .timeout else .response 200

/-! ## Properties of scene segmentation and frame extraction -/

/-- The scene-building loop always emits at least the closing
segment. -/
theorem scenesFromTimes_ne_nil (s : ℚ) (ts : List ℚ) (d : ℚ) :
    scenesFromTimes s ts d ≠ [] := by
  cases ts <;> simp [scenesFromTimes]

/-- The first segment of the scene-building loop starts at the running
start value. -/
theorem scenesFromTimes_head (s : ℚ) (ts : List ℚ) (d : ℚ) :
    (scenesFromTimes s ts d).head? = some (s, ts.headD d) := by
  cases ts <;> simp [scenesFromTimes]

/-- The last segment of the scene-building loop ends at the video
duration. -/
theorem scenesFromTimes_getLast (s : ℚ) (ts : List ℚ) (d : ℚ) :
    (scenesFromTimes s ts d).getLast? = some (ts.getLastD s, d) := by
  induction ts generalizing s with
  | nil => simp [scenesFromTimes]
  | cons t ts ih =>
    cases h : scenesFromTimes t ts d with
    | nil => exact absurd h (scenesFromTimes_ne_nil t ts d)
    | cons y ys =>
      rw [scenesFromTimes, h, List.getLast?_cons_cons, ← h, ih,
        List.getLastD_cons]

/-- Each segment of the scene-building loop starts where the previous
one ended. -/
theorem scenesFromTimes_chain (s : ℚ) (ts : List ℚ) (d : ℚ) :
    List.Chain' (fun a b : ℚ × ℚ => a.2 = b.1) (scenesFromTimes s ts d) := by
  induction ts generalizing s with
  | nil => simp [scenesFromTimes]
  | cons t ts ih =>
    rw [scenesFromTimes]
    refine List.chain'_cons'.mpr ⟨?_, ih t⟩
    intro y hy
    rw [scenesFromTimes_head] at hy
    simp only [Option.mem_def, Option.some.injEq] at hy
    rw [← hy]

/-- The extraction loop makes exactly one attempt per scene, at the
scene midpoint, whether or not the attempt succeeds. -/
theorem extract_frames_loop_attempts (extractOk : ℚ → Bool)
    (dims : ℚ → Nat × Nat) :
    ∀ (i : Nat) (scenes : List (ℚ × ℚ)),
      (extract_frames_loop extractOk dims i scenes).2
        = scenes.map (fun se => (se.1 + se.2) / 2) := by
  intro i scenes
  induction scenes generalizing i with
  | nil => simp [extract_frames_loop]
  | cons se rest ih =>
    obtain ⟨s, e⟩ := se
    simp only [extract_frames_loop, List.map_cons]
    by_cases h : extractOk ((s + e) / 2) <;> simp [h, ih (i + 1)]

/-- C5: for every video of duration D the scene segment list covers
[0, D] with no gaps and no overlaps — it is nonempty, its first segment
starts at 0, each segment starts where the previous one ended, and the
last segment ends at D; zero cut points yield the single segment
(0, D); and `extract_frames` makes exactly one frame attempt per
segment, sampled at the segment midpoint. -/
theorem scene_cover_and_midpoint_sampling :
    ∀ (times : List ℚ) (d : ℚ),
      detect_scenes times d ≠ []
      ∧ Option.map Prod.fst (detect_scenes times d).head? = some 0
      ∧ Option.map Prod.snd (detect_scenes times d).getLast? = some d
      ∧ List.Chain' (fun a b : ℚ × ℚ => a.2 = b.1) (detect_scenes times d)
      ∧ detect_scenes [] d = [(0, d)]
      ∧ ∀ (extractOk : ℚ → Bool) (dims : ℚ → Nat × Nat)
          (scenes : List (ℚ × ℚ)),
          (extract_frames extractOk dims scenes).2
            = scenes.map (fun se => (se.1 + se.2) / 2) := by
  intro times d
  refine ⟨?_, ?_, ?_, ?_, by simp [detect_scenes], ?_⟩
  · by_cases h : times = [] <;>
      simp [detect_scenes, h, scenesFromTimes_ne_nil]
  · by_cases h : times = [] <;>
      simp [detect_scenes, h, scenesFromTimes_head]
  · by_cases h : times = [] <;>
      simp [detect_scenes, h, scenesFromTimes_getLast]
  · by_cases h : times = [] <;>
      simp [detect_scenes, h, scenesFromTimes_chain]
  · intro extractOk dims scenes
    exact extract_frames_loop_attempts extractOk dims 1 scenes

/-! ## Properties of quality filtering -/

/-- C3 (counterexample): on an input frame whose image cannot be read,
`filter_quality_frames` returns no assessment at all for that frame, so
the assessment list does not have one entry per input frame as the
claim states. -/
theorem filter_quality_frames_missing_assessment_cex :
    ((filter_quality_frames (assess_quality {} readAllBroken) [7]).2).length
      ≠ ([7] : List Nat).length := by decide

/-- C3 (amended): the accepted list is a subsequence of the input in
original order — precisely the readable frames whose assessment is
acceptable — and the assessment list has exactly one entry per readable
input frame (`paths.filterMap assess`); frames whose image cannot be
read are skipped and appear in neither output. -/
theorem filter_quality_frames_order_and_assessments :
    ∀ (assess : Nat → Option ImageQuality) (paths : List Nat),
      List.Sublist (filter_quality_frames assess paths).1 paths
      ∧ (filter_quality_frames assess paths).2 = paths.filterMap assess
      ∧ (filter_quality_frames assess paths).1
          = paths.filter
              (fun p => ((assess p).map (·.is_acceptable)).getD false) := by
  intro assess paths
  induction paths with
  | nil => simp [filter_quality_frames]
  | cons p ps ih =>
    obtain ⟨h1, h2, h3⟩ := ih
    simp only [filter_quality_frames]
    cases h : assess p with
    | none =>
      refine ⟨List.Sublist.cons p h1, ?_, ?_⟩
      · simp [h, h2]
      · simp [h, h3]
    | some q =>
      by_cases ha : q.is_acceptable
      · refine ⟨?_, ?_, ?_⟩
        · simpa [ha] using List.Sublist.cons₂ p h1
        · simp [h, ha, h2]
        · simp [h, ha, h3]
      · refine ⟨?_, ?_, ?_⟩
        · simpa [ha] using List.Sublist.cons p h1
        · simp [h, ha, h2]
        · simp [h, ha, h3]

/-! ## Properties of dataset assembly -/

/-- C4: `build_dataset` fails (with `DatasetBuildError`) exactly when
the post-filter frame count is strictly below `min_frames`; otherwise
it keeps the first `max_frames` frames in original order, so the
returned image count is `min (post-filter count) max_frames` and lies
between `min_frames` and `max_frames`. -/
theorem build_dataset_min_max_bounds :
    ∀ (assess : Nat → Option ImageQuality) (min_frames max_frames : Nat)
      (frames : List Frame) (trigger : String)
      (use_caption_variations filter_quality : Bool),
      min_frames ≤ max_frames →
      ((∃ e, build_dataset assess min_frames max_frames frames trigger
            use_caption_variations filter_quality = .error e)
        ↔ (post_filter assess filter_quality frames).length < min_frames)
      ∧ ∀ ds, build_dataset assess min_frames max_frames frames trigger
            use_caption_variations filter_quality = .ok ds →
          ds.kept = (post_filter assess filter_quality frames).take max_frames
          ∧ ds.image_count
              = min (post_filter assess filter_quality frames).length
                  max_frames
          ∧ min_frames ≤ ds.image_count
          ∧ ds.image_count ≤ max_frames := by
  intro assess minF maxF frames trigger ucv fq hminmax
  have hpf : (if fq = true then (filter_frames assess frames).1 else frames)
      = post_filter assess fq frames := rfl
  simp only [build_dataset, hpf]
  by_cases hlen : (post_filter assess fq frames).length < minF
  · simp [hlen]
  · simp only [hlen, if_neg, not_false_iff, iff_false]
    refine ⟨by simp [hlen], ?_⟩
    intro ds hds
    by_cases hmax : maxF < (post_filter assess fq frames).length
    · simp only [hmax, if_pos] at hds
      obtain rfl : ds = _ := (Except.ok.injEq _ _).mp hds.symm
      refine ⟨rfl, ?_, ?_, ?_⟩ <;> simp [List.length_take] <;> omega
    · simp only [hmax, if_neg, not_false_iff] at hds
      obtain rfl : ds = _ := (Except.ok.injEq _ _).mp hds.symm
      have hle : (post_filter assess fq frames).length ≤ maxF := by omega
      refine ⟨(List.take_of_length_le hle).symm, ?_, ?_, ?_⟩ <;>
        simp <;> omega

/-- Witness for the dataset-bound theorem: with `min_frames = 1`,
`max_frames = 50` and frame 2 rejected by quality filtering, the build
succeeds with an image count of 2, inside the configured bounds. -/
theorem build_dataset_min_max_bounds_witness :
    (1 : Nat) ≤ 50
    ∧ build_dataset (assess_quality {} readDropSecond) 1 50
        [plainFrame 1, plainFrame 2, plainFrame 3] "person" true true
        = .ok twoFrameDataset
    ∧ 1 ≤ twoFrameDataset.image_count
    ∧ twoFrameDataset.image_count ≤ 50 := by
  have hb : build_dataset (assess_quality {} readDropSecond) 1 50
      [plainFrame 1, plainFrame 2, plainFrame 3] "person" true true
      = .ok twoFrameDataset := by decide
  have h := (build_dataset_min_max_bounds (assess_quality {} readDropSecond)
    1 50 [plainFrame 1, plainFrame 2, plainFrame 3] "person" true true
    (by decide)).2 twoFrameDataset hb
  exact ⟨by decide, hb, h.2.2.1, h.2.2.2⟩

/-- C7 (counterexample): when quality filtering drops frame 2, the
second retained frame is the one extracted as `frame_0003.jpg`, and its
caption uses template index 3 — not template index 2 as selection by
the frame's position in the retained sequence would give. -/
theorem caption_not_by_position_cex :
    Except.map TrainingDataset.captions
        (build_dataset (assess_quality {} readDropSecond) 1 50
          [plainFrame 1, plainFrame 2, plainFrame 3] "person" true true)
      = .ok ["a photo of person", "a professional photo of person"]
    ∧ Except.map (fun ds => captionsByPosition "person" ds.kept)
        (build_dataset (assess_quality {} readDropSecond) 1 50
          [plainFrame 1, plainFrame 2, plainFrame 3] "person" true true)
      = .ok ["a photo of person", "person looking at camera"]
    ∧ (["a photo of person", "a professional photo of person"]
        : List String)
      ≠ ["a photo of person", "person looking at camera"] := by
  exact ⟨by decide, by decide, by decide⟩

/-- C7 (amended): caption selection is deterministic and cyclic, keyed
by the numeric index embedded in each retained frame's extracted file
name modulo the template-set size, with the trigger phrase
interpolated; when the retained frames carry the consecutive indices
1..n — in particular whenever no frame was filtered out — this
coincides with selection by the frame's position in the retained
sequence. -/
theorem captions_cycle_by_file_index :
    ∀ (assess : Nat → Option ImageQuality) (min_frames max_frames : Nat)
      (frames : List Frame) (trigger : String) (filter_quality : Bool)
      (ds : TrainingDataset),
      build_dataset assess min_frames max_frames frames trigger true
          filter_quality = .ok ds →
      ds.captions = ds.kept.map (fun f =>
        interpolate
          (variation_templates.getD
            (f.file_path % variation_templates.length) default_template)
          trigger)
      ∧ ((∀ k (hk : k < ds.kept.length), (ds.kept.get ⟨k, hk⟩).file_path
            = k + 1) →
          ds.captions = captionsByPosition trigger ds.kept) := by
  intro assess minF maxF frames trigger fq ds hds
  have hcap : ds.captions = ds.kept.map (fun f =>
      generate_caption trigger true (some f.file_path)) := by
    simp only [build_dataset] at hds
    by_cases hlen :
        (if fq = true then (filter_frames assess frames).1 else frames).length
          < minF
    · simp [hlen] at hds
    · simp only [hlen, if_neg, not_false_iff] at hds
      obtain rfl : ds = _ := (Except.ok.injEq _ _).mp hds.symm
      rfl
  have hgen : ∀ i : Nat, generate_caption trigger true (some i)
      = interpolate
          (variation_templates.getD (i % variation_templates.length)
            default_template) trigger := fun i => rfl
  refine ⟨by simpa [hgen] using hcap, ?_⟩
  intro hidx
  rw [hcap]
  apply List.ext_get
  · simp [captionsByPosition]
  · intro k h1 h2
    have hk : k < ds.kept.length := by simpa using h1
    have h3 := hidx k hk
    rw [List.get_eq_getElem] at h3
    simp [captionsByPosition, h3, hgen, List.getD]

/-- Witness for the caption-cycling theorem: when all three frames
pass filtering, their indices are the consecutive 1..3, and the
generated captions coincide with position-based cycling through the
template set. -/
theorem captions_cycle_by_file_index_witness :
    build_dataset (assess_quality {} readAllGood) 1 50
        [plainFrame 1, plainFrame 2, plainFrame 3] "person" true true
      = .ok threeFrameDataset
    ∧ threeFrameDataset.captions
      = captionsByPosition "person" threeFrameDataset.kept := by
  have hb : build_dataset (assess_quality {} readAllGood) 1 50
      [plainFrame 1, plainFrame 2, plainFrame 3] "person" true true
      = .ok threeFrameDataset := by decide
  have h := captions_cycle_by_file_index (assess_quality {} readAllGood)
    1 50 [plainFrame 1, plainFrame 2, plainFrame 3] "person" true
    threeFrameDataset hb
  exact ⟨hb, h.2 (by decide)⟩

/-! ## Properties of the webhook notifier -/

/-- A successful attempt is exactly a response in the 200-299 range. -/
theorem attemptOnce_ok_range (outcome : Nat → AttemptOutcome)
    (k s : Nat) (h : attemptOnce outcome k = .ok s) :
    200 ≤ s ∧ s < 300 := by
  cases ho : outcome k with
  | response status =>
    rw [attemptOnce, ho] at h
    dsimp only at h
    by_cases hr : 200 ≤ status ∧ status < 300
    · rw [if_pos hr] at h
      obtain rfl : status = s := by simpa using h
      exact hr
    · rw [if_neg hr] at h
      exact absurd h (by simp)
  | timeout => simp [attemptOnce, ho] at h
  | connError msg => simp [attemptOnce, ho] at h

/-- Every return path of the retry loop carries an `attempts` count. -/
theorem send_webhook_loop_attempts_isSome (outcome : Nat → AttemptOutcome) :
    ∀ (fuel attempt : Nat),
      ((send_webhook_loop outcome attempt fuel).result.attempts).isSome
        = true := by
  intro fuel
  induction fuel with
  | zero =>
    intro attempt
    rw [send_webhook_loop]
    cases h : attemptOnce outcome attempt <;> simp
  | succ f ih =>
    intro attempt
    rw [send_webhook_loop]
    cases h : attemptOnce outcome attempt
    · dsimp only
      exact ih (attempt + 1)
    · simp

/-- C6: `send_webhook` with a non-empty URL makes at most 3 HTTP
attempts; the sleeps before the 2nd and 3rd attempts are exactly 1 s
and 2 s (`delays` is a prefix of `[1, 2]`); a 2xx response on attempt n
ends the call immediately with a success record carrying `attempts = n`
and every earlier attempt failed; and after the 3rd failed attempt the
call returns a failure record with `attempts = 3` and the last error
message instead of throwing. -/
theorem send_webhook_retry_contract :
    ∀ (outcome : Nat → AttemptOutcome) (url : String), url ≠ "" →
      ∃ n, 1 ≤ n ∧ n ≤ MAX_ATTEMPTS
        ∧ (send_webhook outcome url).httpAttempts = n
        ∧ (send_webhook outcome url).result.attempts = some n
        ∧ (send_webhook outcome url).delays = [1, 2].take (n - 1)
        ∧ (∀ k, 1 ≤ k → k < n → ∃ m, attemptOnce outcome k = .error m)
        ∧ ((∃ s, attemptOnce outcome n = .ok s ∧ 200 ≤ s ∧ s < 300
              ∧ (send_webhook outcome url).result
                = { success := true, status_code := some s,
                    error := none, attempts := some n })
          ∨ (n = MAX_ATTEMPTS
              ∧ ∃ m, attemptOnce outcome n = .error m
                ∧ (send_webhook outcome url).result
                  = { success := false, status_code := none,
                      error := some m, attempts := some n })) := by
  intro outcome url hurl
  have hmain : send_webhook outcome url = send_webhook_loop outcome 1 2 := by
    rw [send_webhook, if_neg hurl]
    norm_num [MAX_ATTEMPTS]
  rw [hmain, send_webhook_loop]
  cases h1 : attemptOnce outcome 1 with
  | ok s =>
    have hs := attemptOnce_ok_range outcome 1 s h1
    exact ⟨1, by norm_num, by norm_num [MAX_ATTEMPTS], rfl, rfl, rfl,
      by omega, Or.inl ⟨s, h1, hs.1, hs.2, rfl⟩⟩
  | error m1 =>
    dsimp only
    rw [send_webhook_loop]
    cases h2 : attemptOnce outcome 2 with
    | ok s =>
      have hs := attemptOnce_ok_range outcome 2 s h2
      refine ⟨2, by norm_num, by norm_num [MAX_ATTEMPTS], by norm_num,
        rfl, by norm_num, ?_, Or.inl ⟨s, h2, hs.1, hs.2, rfl⟩⟩
      intro k hk1 hk2
      interval_cases k
      exact ⟨m1, h1⟩
    | error m2 =>
      dsimp only
      rw [send_webhook_loop]
      cases h3 : attemptOnce outcome 3 with
      | ok s =>
        have hs := attemptOnce_ok_range outcome 3 s h3
        refine ⟨3, by norm_num, by norm_num [MAX_ATTEMPTS], by norm_num,
          rfl, by norm_num, ?_, Or.inl ⟨s, h3, hs.1, hs.2, rfl⟩⟩
        intro k hk1 hk2
        interval_cases k
        · exact ⟨m1, h1⟩
        · exact ⟨m2, h2⟩
      | error m3 =>
        refine ⟨3, by norm_num, by norm_num [MAX_ATTEMPTS], by norm_num,
          rfl, by norm_num, ?_,
          Or.inr ⟨by norm_num [MAX_ATTEMPTS], m3, h3, rfl⟩⟩
        intro k hk1 hk2
        interval_cases k
        · exact ⟨m1, h1⟩
        · exact ⟨m2, h2⟩

/-- Witness for the retry contract: an endpoint that times out on
attempts 1 and 2 and returns HTTP 200 on attempt 3 yields a success
record with 3 attempts after sleeping 1 s and then 2 s. -/
theorem send_webhook_retry_contract_witness :
    ("https://example.com/webhook" : String) ≠ ""
    ∧ (send_webhook twoTimeoutsThen200 "https://example.com/webhook").result
      = { success := true, status_code := some 200, error := none,
          attempts := some 3 }
    ∧ (send_webhook twoTimeoutsThen200 "https://example.com/webhook").delays
      = [1, 2]
    ∧ (send_webhook twoTimeoutsThen200
        "https://example.com/webhook").httpAttempts = 3 := by
  have h := send_webhook_retry_contract twoTimeoutsThen200
    "https://example.com/webhook" (by decide)
  exact ⟨by decide, by decide, by decide, by decide⟩

/-- C10: `send_webhook` with an empty (falsy) webhook URL returns
`{success: false, error: "No webhook URL"}` immediately — zero HTTP
attempts, zero sleeps, and no `attempts` field — while every other
return path does include the `attempts` field. -/
theorem send_webhook_no_url :
    (∀ outcome, send_webhook outcome ""
      = { result := { success := false, status_code := none,
                      error := some "No webhook URL", attempts := none },
          delays := [], httpAttempts := 0 })
    ∧ ∀ (outcome : Nat → AttemptOutcome) (url : String), url ≠ "" →
        ((send_webhook outcome url).result.attempts).isSome = true := by
  constructor
  · intro outcome
    rfl
  · intro outcome url hurl
    rw [send_webhook, if_neg hurl]
    exact send_webhook_loop_attempts_isSome outcome (MAX_ATTEMPTS - 1) 1

/-- Witness for the missing-URL theorem: evaluated with a concrete
attempt oracle on the empty URL and on a non-empty URL. -/
theorem send_webhook_no_url_witness :
    send_webhook twoTimeoutsThen200 ""
      = { result := { success := false, status_code := none,
                      error := some "No webhook URL", attempts := none },
          delays := [], httpAttempts := 0 }
    ∧ ((send_webhook twoTimeoutsThen200
        "https://example.org/hook").result.attempts).isSome = true := by
  exact ⟨send_webhook_no_url.1 twoTimeoutsThen200,
    send_webhook_no_url.2 twoTimeoutsThen200 "https://example.org/hook"
      (by decide)⟩

/-! ## Properties of the pipeline orchestrator -/

/-- Structural shape of every orchestrator run: some stage raises
after the first `k` checkpoint updates (`k = 2` when the source-video
download fails, `k = 4` otherwise), the operation trace is those
checkpoints followed by the single `failed` update carrying the
message and no progress value, and the outcome is that error.  No run
succeeds: a run that survives `build_dataset` raises at the
`dataset.frame_count` read. -/
theorem run_trace_shape (env : PipelineEnv) :
    ∃ e k,
      ((k = 2 ∧ (process_training_job env).stages = [Stage.download])
        ∨ (k = 4 ∧ (process_training_job env).stages
            = [Stage.download, Stage.extract, Stage.dataset]))
      ∧ (process_training_job env).ops = failTrace k e
      ∧ (process_training_job env).outcome = .error e := by
  obtain ⟨job0, dv, video, read, trig, ud, tr, dl, ul, uc, ls⟩ := env
  cases dv with
  | error e =>
    refine ⟨e, 2, Or.inl ⟨rfl, ?_⟩, ?_, ?_⟩ <;>
      simp [process_training_job, failRun, failTrace, CHECKPOINTS,
        processingUpd]
  | ok u =>
    cases u
    rcases hb : build_dataset (assess_quality {} read) BUILDER_MIN_FRAMES
        BUILDER_MAX_FRAMES (process_video video).frames trig true true
      with e | ds
    · refine ⟨e, 4, Or.inr ⟨rfl, ?_⟩, ?_, ?_⟩ <;>
        simp [process_training_job, failRun, failTrace, CHECKPOINTS,
          processingUpd, hb]
    · refine
        ⟨"AttributeError: TrainingDataset object has no attribute frame_count",
          4, Or.inr ⟨rfl, ?_⟩, ?_, ?_⟩ <;>
        simp [process_training_job, failRun, failTrace, CHECKPOINTS,
          processingUpd, hb]

/-- Mapping the checkpoint constructor and then projecting the
progress value is the identity. -/
theorem filterMap_opProgress_processingUpd (l : List Nat) :
    List.filterMap opProgress (l.map processingUpd) = l := by
  rw [List.filterMap_map]
  exact List.filterMap_some l

/-- The progress values persisted by a failing run are the first `k`
checkpoints: the closing `failed` update carries no progress value. -/
theorem progressValues_failTrace (k : Nat) (e : String) :
    progressValues (failTrace k e) = CHECKPOINTS.take k := by
  rw [progressValues, failTrace, List.filterMap_append,
    filterMap_opProgress_processingUpd]
  simp [opProgress]

/-- Every prefix of the checkpoint list is non-decreasing. -/
theorem chain_le_checkpoints_take (k : Nat) :
    List.Chain' (· ≤ ·) (CHECKPOINTS.take k) :=
  List.Chain'.take (by norm_num [CHECKPOINTS, List.chain'_cons]) k

/-- The terminal `failed` update sets the status and the error message
and leaves every other Job field — in particular `progress` —
untouched. -/
theorem update_failed (j : Job) (e : String) :
    update_job_status j "failed" none (some e)
      = { j with status := "failed", error := some e } := by
  simp [update_job_status]

/-- Replaying a failing trace yields a `failed` Job carrying the error
message, whose progress equals the progress after the checkpoint
updates alone. -/
theorem applyOps_failTrace (job : Job) (k : Nat) (e : String) :
    (applyOps job (failTrace k e)).status = "failed"
    ∧ (applyOps job (failTrace k e)).error = some e
    ∧ (applyOps job (failTrace k e)).progress
      = (applyOps job ((failTrace k e).dropLast)).progress := by
  have h1 : applyOps job (failTrace k e)
      = update_job_status
          (applyOps job ((CHECKPOINTS.take k).map processingUpd))
          "failed" none (some e) := by
    simp [failTrace, applyOps, applyOp]
  have h2 : (failTrace k e).dropLast
      = (CHECKPOINTS.take k).map processingUpd := by
    simp [failTrace]
  rw [h1, h2, update_failed]
  exact ⟨rfl, rfl, rfl⟩

/-- A failing trace consists of status updates only: it never contains
a version append. -/
theorem addVersion_not_mem_failTrace (v : Version) (k : Nat)
    (e : String) : DbOp.addVersion v ∉ failTrace k e := by
  intro hmem
  simp only [failTrace, List.mem_append, List.mem_singleton] at hmem
  rcases hmem with hmem | hmem
  · obtain ⟨p, -, hp⟩ := List.mem_map.mp hmem
    exact absurd hp (by simp [processingUpd])
  · exact absurd hmem (by simp)

/-- C8: within one pipeline execution the persisted progress sequence
is monotonically non-decreasing, and on a stage failure the Job ends
`failed` with the captured error message while its progress field
stays at the last persisted checkpoint instead of being reset.  The
claim's success path does not exist in the source: no run's outcome is
`ok`, because a run that passes `build_dataset` raises at the
`dataset.frame_count` read — with every external call succeeding, the
run still fails at progress 35 with that `AttributeError`, so the
persisted progress never goes beyond 0, 10, 20, 35. -/
theorem progress_monotonic_and_no_success_path :
    (∀ env : PipelineEnv,
      List.Chain' (· ≤ ·) (progressValues (process_training_job env).ops)
      ∧ (∀ v, (process_training_job env).outcome ≠ Except.ok v)
      ∧ (∀ e, (process_training_job env).outcome = .error e →
          (applyOps env.job0 (process_training_job env).ops).status
            = "failed"
          ∧ (applyOps env.job0 (process_training_job env).ops).error
            = some e
          ∧ (applyOps env.job0 (process_training_job env).ops).progress
            = (applyOps env.job0
                ((process_training_job env).ops.dropLast)).progress))
    ∧ (process_training_job envOK).outcome
      = .error
        "AttributeError: TrainingDataset object has no attribute frame_count"
    ∧ progressValues (process_training_job envOK).ops = [0, 10, 20, 35]
    ∧ (applyOps envOK.job0 (process_training_job envOK).ops).progress
      = 35 := by
  refine ⟨?_, by decide, by decide, by decide⟩
  intro env
  obtain ⟨e, k, -, hops, hout⟩ := run_trace_shape env
  refine ⟨?_, ?_, ?_⟩
  · rw [hops, progressValues_failTrace]
    exact chain_le_checkpoints_take k
  · intro v hv
    rw [hout] at hv
    exact absurd hv (by simp)
  · intro e2 he2
    rw [hout] at he2
    obtain rfl : e = e2 := by simpa using he2
    rw [hops]
    exact applyOps_failTrace env.job0 k e

/-- Witness for the progress theorem: the run in which only 5 frames
survive quality filtering ends `failed` at the dataset stage with its
progress left at the 35 checkpoint, not reset. -/
theorem progress_monotonic_and_no_success_path_witness :
    (process_training_job envFewFrames).outcome
      = .error "Dataset build failed: Insufficient frames: 5 < 15 required"
    ∧ (applyOps envFewFrames.job0
        (process_training_job envFewFrames).ops).status = "failed"
    ∧ (applyOps envFewFrames.job0
        (process_training_job envFewFrames).ops).progress
      = (applyOps envFewFrames.job0
          ((process_training_job envFewFrames).ops.dropLast)).progress
    ∧ (applyOps envFewFrames.job0
        (process_training_job envFewFrames).ops).progress = 35 := by
  have hfail := (progress_monotonic_and_no_success_path.1
    envFewFrames).2.2
    "Dataset build failed: Insufficient frames: 5 < 15 required"
    (by decide)
  exact ⟨by decide, hfail.1, hfail.2.2, by decide⟩

/-- C9: the version-allocation code of the source
(`version = len(job.versions) + 1` read from the store immediately
before the append) is dead code.  No run reaches step 7: the operation
trace of every run contains no version append, no run's outcome is an
allocated version, and with every external call succeeding the run
still fails at the `dataset.frame_count` read, leaving the Job's
version list untouched. -/
theorem version_allocation_dead_code :
    (∀ (env : PipelineEnv) (v : Version),
      DbOp.addVersion v ∉ (process_training_job env).ops)
    ∧ (∀ (env : PipelineEnv) (v : Nat),
      (process_training_job env).outcome ≠ Except.ok v)
    ∧ (process_training_job envOK).outcome
      = .error
        "AttributeError: TrainingDataset object has no attribute frame_count"
    ∧ (applyOps envOK.job0 (process_training_job envOK).ops).versions
      = envOK.job0.versions := by
  refine ⟨?_, ?_, by decide, by decide⟩
  · intro env v
    obtain ⟨e, k, -, hops, -⟩ := run_trace_shape env
    rw [hops]
    exact addVersion_not_mem_failTrace v k e
  · intro env v hv
    obtain ⟨e, k, -, -, hout⟩ := run_trace_shape env
    rw [hout] at hv
    exact absurd hv (by simp)

/-- C1 (evaluation at the failing input): the execution the claim
quantifies over never occurs in the source.  The provider is never
called: every run raises at the `dataset.frame_count` read before
step 5, so no run enters the training, artifact-download or
artifact-upload stages.  With the provider configured to report
`success=False` and a quota error, the run fails with the
`frame_count` `AttributeError` — its outcome is identical to the
all-success run's — and the persisted Job error is not the
provider-reported error the claim requires. -/
theorem provider_result_never_consulted :
    (∀ env : PipelineEnv,
      Stage.train ∉ (process_training_job env).stages
      ∧ Stage.downloadArtifact ∉ (process_training_job env).stages
      ∧ Stage.uploadArtifact ∉ (process_training_job env).stages)
    ∧ envTrainFail.train.success = false
    ∧ envTrainFail.train.error = some "Training failed: GPU quota exceeded"
    ∧ (process_training_job envTrainFail).outcome
      = .error
        "AttributeError: TrainingDataset object has no attribute frame_count"
    ∧ (process_training_job envTrainFail).outcome
      = (process_training_job envOK).outcome
    ∧ (applyOps envTrainFail.job0
        (process_training_job envTrainFail).ops).status = "failed"
    ∧ (applyOps envTrainFail.job0
        (process_training_job envTrainFail).ops).error
      ≠ envTrainFail.train.error := by
  refine ⟨?_, by decide, by decide, by decide, by decide, by decide,
    by decide⟩
  intro env
  obtain ⟨e, k, hst, -, -⟩ := run_trace_shape env
  rcases hst with ⟨-, hst⟩ | ⟨-, hst⟩ <;> rw [hst] <;>
    exact ⟨by decide, by decide, by decide⟩

/-- C2 (counterexample): on a source whose download fails,
`process_video` does not raise `VideoProcessingError` — it returns a
normal failure record with `success = false` and an empty frame list —
and the orchestrator, which never checks that flag, continues into the
dataset stage, where the job fails with a `DatasetBuildError` message
rather than the video error. -/
theorem process_video_returns_instead_of_raising_cex :
    (process_video venvBadDownload).success = false
    ∧ (process_video venvBadDownload).frames = []
    ∧ (process_video venvBadDownload).error
      = some "Failed to download video: connection refused"
    ∧ processVideoBody venvBadDownload
      = .error "Failed to download video: connection refused"
    ∧ Stage.dataset ∈ (process_training_job envVideoFail).stages
    ∧ (process_training_job envVideoFail).outcome
      = .error "Dataset build failed: Insufficient frames: 0 < 15 required" := by
  exact ⟨by decide, by decide, by decide, by decide, by decide, by decide⟩

/-- C2 (amended): `process_video` either returns its `try`-block result
with `success = true`, or returns a failure record carrying the
`VideoProcessingError` message with `success = false` and no frames —
it never propagates the exception to the orchestrator; and whenever
the source-download step succeeds the orchestrator always proceeds to
the dataset stage, so an extraction failure aborts the job only later,
through the dataset stage's frame-count check. -/
theorem process_video_returns_record :
    (∀ venv : VideoEnv,
      (∃ r, processVideoBody venv = .ok r ∧ process_video venv = r
        ∧ r.success = true ∧ r.error = none)
      ∨ (∃ e, processVideoBody venv = .error e
        ∧ process_video venv
          = { success := false, scenes_detected := 0,
              frames_extracted := 0, frames := [], error := some e }))
    ∧ ∀ env : PipelineEnv, env.downloadVideo = .ok () →
        Stage.dataset ∈ (process_training_job env).stages := by
  constructor
  · intro venv
    cases hb : processVideoBody venv with
    | ok r =>
      left
      refine ⟨r, rfl, by simp [process_video, hb], ?_, ?_⟩ <;>
      · rw [processVideoBody] at hb
        rcases hd : venv.download with e | u <;> rw [hd] at hb
        · exact absurd hb (by simp)
        · rcases hdet : venv.detect with e | times <;> rw [hdet] at hb
          · exact absurd hb (by simp)
          · obtain rfl : _ = r := by simpa using hb
            rfl
    | error e =>
      right
      exact ⟨e, rfl, by simp [process_video, hb]⟩
  · intro env hdl
    obtain ⟨job0, dv, video, read, trig, ud, tr, dl, ul, uc, ls⟩ := env
    obtain rfl : dv = .ok () := hdl
    rcases hb : build_dataset (assess_quality {} read) BUILDER_MIN_FRAMES
        BUILDER_MAX_FRAMES (process_video video).frames trig true true
      with e | ds
    · simp [process_training_job, failRun, hb]
    · simp [process_training_job, failRun, hb]

/-- Witness for the amended extraction contract: evaluated on the
failing download and on the pipeline oracles built from it. -/
theorem process_video_returns_record_witness :
    process_video venvBadDownload
      = { success := false, scenes_detected := 0, frames_extracted := 0,
          frames := [],
          error := some "Failed to download video: connection refused" }
    ∧ Stage.dataset ∈ (process_training_job envVideoFail).stages := by
  have h1 := process_video_returns_record.1 venvBadDownload
  have h2 := process_video_returns_record.2 envVideoFail (by decide)
  exact ⟨by decide, h2⟩
